import Mathlib

/-!
Shallow embedding of the HTTP/2 notification client in `src/simple.py`
(an asynchronous single-connection multiplexer for APNs-style push),
together with theorems settling the specification claims about it.

Conventions:
* bytes are modelled as `List Nat`;
* the monotonic clock is modelled by `ℚ`, a request deadline by `ETime`
  (a rational or `+∞`, matching `math.inf` in the source);
* `json.loads` (an external collaborator of the core) is a parameter
  `decode : Bytes → Option PyJson`;
* Python exceptions are modelled as explicit result constructors;
* the cooperative scheduler is modelled by making each suspension point
  an explicit input: a `post` call receives the list of waiter wake-ups
  (`Wake`), the reader task receives the list of read results.
-/

namespace Aapns

/-- Byte strings, one `Nat` per byte. -/
abbrev Bytes := List Nat

/-- A point on the monotonic clock extended with `+∞` (Python `math.inf`),
used for request deadlines. -/
inductive ETime where
  | fin (t : ℚ)
  | inf
deriving DecidableEq

/-- The deadline test `now > req.deadline` from `Connection.post`
(src/simple.py lines 197 and 225): strictly past the deadline.
`math.inf` is never exceeded. -/
def timePassed (now : ℚ) (deadline : ETime) : Bool :=
  match deadline with
  | .fin d => decide (d < now)
  | .inf => false

/-- Decoded JSON values, the result type of the external `json.loads`. -/
inductive PyJson where
  | null
  | bool (b : Bool)
  | num (n : Int)
  | str (s : String)
  | arr (elems : List PyJson)
  | obj (fields : List (String × PyJson))

/-- Python `dict` update `d[k] = v`: replace the value in place when the key
exists (keeping its position), otherwise append the pair. -/
def dictInsert (d : List (String × String)) (kv : String × String) :
    List (String × String) :=
  if (d.lookup kv.1).isSome then
    d.map (fun e => if e.1 = kv.1 then (e.1, kv.2) else e)
  else d ++ [kv]

/-- Python `dict(pairs)`: fold the pairs into an insertion-ordered map,
later values for a key overwriting earlier ones in place. -/
def dictOf (l : List (String × String)) : List (String × String) :=
  l.foldl dictInsert []

/-- A decoded HTTP/2 response (the `Response` dataclass,
src/simple.py lines 322-326). -/
structure Response where
  code : Int
  header : List (String × String)
  data : Option PyJson

/-- The exceptions `Response.new` can raise: `FormatError` when a non-empty
body is not valid JSON, `ValueError` when `int()` rejects the `:status`
value. -/
inductive RespError where
  | formatError
  | valueError
deriving DecidableEq

/-- Accumulate decimal digits; `none` as soon as a non-digit appears. -/
def parseDigitsAux : List Char → Nat → Option Nat
  | [], acc => some acc
  | c :: cs, acc =>
    if 48 ≤ c.toNat ∧ c.toNat ≤ 57 then
      parseDigitsAux cs (acc * 10 + (c.toNat - 48))
    else none

/-- Models Python `int` applied to a decimal string literal (an optional
leading minus sign followed by at least one digit); `none` models the
`ValueError` that `int` raises on anything else. -/
def pyInt (s : String) : Option Int :=
  match s.toList with
  | [] => none
  | '-' :: cs =>
    if cs = [] then none else (parseDigitsAux cs 0).map (fun n => -(n : Int))
  | cs => (parseDigitsAux cs 0).map (fun n => (n : Int))

/-- The `:status` string that `h.pop(":status", "0")` yields: the stored
value, or `"0"` when the key is absent (or the whole header is `None`). -/
def statusString (header : Option (List (String × String))) : String :=
  (((header.getD []).lookup ":status")).getD "0"

/-- The header map after `h.pop(":status", ...)`: every `:status` entry
removed, everything else kept in order. -/
def remainingHeaders (header : Option (List (String × String))) :
    List (String × String) :=
  (header.getD []).filter (fun kv => kv.1 ≠ ":status")

/-- Models `Response.new` (src/simple.py lines 328-335).  `decode` stands for
`json.loads`; `pyInt` stands for Python `int` on the status string.
The `int(...)` call sits outside the `try`, so an unparsable `:status` raises
`ValueError` before the body is examined; `json.JSONDecodeError` inside the
`try` is re-raised as `FormatError`; an empty body yields `data = None`. -/
def Response.new (decode : Bytes → Option PyJson)
    (header : Option (List (String × String))) (body : Bytes) :
    Except RespError Response :=
  match pyInt (statusString header) with
  | none => .error .valueError
  | some code =>
    if body = [] then .ok ⟨code, remainingHeaders header, none⟩
    else
      match decode body with
      | some j => .ok ⟨code, remainingHeaders header, some j⟩
      | none => .error .formatError

/-- The h2 protocol events the client consumes (section of the event stream
relevant to `src/simple.py`).  Stream events are routed by a stream id kept
alongside the event (h2 `event.stream_id`); `errorCode` models
`getattr(event, "error_code", None)`. -/
inductive H2Event where
  | responseReceived (headers : List (String × String))
  | dataReceived (data : Bytes)
  | streamEnded
  | streamReset (errorCode : Nat)
  | windowUpdated (delta : Nat)
  | remoteSettingsChanged (newMaxConcurrentStreams : Option Nat)
  | settingsAcknowledged
  | connectionTerminated (errorCode : Nat)
deriving DecidableEq

/-- Models `getattr(event, "error_code", None)`: only `StreamReset` and
`ConnectionTerminated` carry an error code. -/
def H2Event.errorCode : H2Event → Option Nat
  | .streamReset e => some e
  | .connectionTerminated e => some e
  | _ => none

/-- Result of one pass of `for event in ch.ev` in `Connection.post`:
either the loop ran off the end (`cont`), or it returned at a
`StreamEnded` (`ended`), each with the header snapshot and body
accumulated so far. -/
inductive ProcResult where
  | cont (header : Option (List (String × String))) (body : Bytes)
  | ended (header : Option (List (String × String))) (body : Bytes)

/-- The event-draining loop of `Connection.post` (src/simple.py lines
227-233), applied to the FULL buffer `ch.ev`: `ResponseReceived` overwrites
the header snapshot with `dict(event.headers)`, `DataReceived` appends to the
body, `StreamEnded` returns; every other event (`StreamReset` included) falls
through all three `isinstance` tests and is ignored. -/
def processEvents : List H2Event → Option (List (String × String)) → Bytes →
    ProcResult
  | [], h, b => .cont h b
  | e :: es, h, b =>
    match e with
    | .responseReceived hs => processEvents es (some (dictOf hs)) b
    | .dataReceived d => processEvents es h (b ++ d)
    | .streamEnded => .ended h b
    | _ => processEvents es h b

/-- One waiter wake-up observed by `Connection.post`'s wait loop: the
monotonic clock on wake, the full contents of the stream's event buffer
`ch.ev` at that moment (the reader only ever appends to it), and the value
of `self.closing` that the next `while not self.closing` check will see. -/
structure Wake where
  now : ℚ
  ev : List H2Event
  closingAfter : Bool

/-- How the wait loop of `Connection.post` exits. -/
inductive PostOutcome where
  | ok (r : Response)
  | timeout
  | closed
  | formatError
  | valueError

/-- Lift the result of `Response.new` to a wait-loop outcome. -/
def outcomeOfResponse : Except RespError Response → PostOutcome
  | .ok r => .ok r
  | .error .formatError => .formatError
  | .error .valueError => .valueError

/-- The wait loop of `Connection.post` (src/simple.py lines 217-235), one
recursion step per wake-up.  `closing` is the flag value the `while not
self.closing` head observes; on wake the deadline is re-checked (`now >
req.deadline` raises `Timeout`), then the WHOLE buffer `ch.ev` is
re-processed starting from the current `ch.header`/`ch.body` accumulators
(the code never removes processed events), and `Response.new` is applied at
a `StreamEnded`.  When the loop head sees `closing`, the `while`'s `else`
raises `Closed`.  `none` means the supplied schedule of wake-ups ended with
the loop still waiting. -/
def waitLoop (decode : Bytes → Option PyJson) (deadline : ETime) :
    Bool → List Wake → Option (List (String × String)) → Bytes →
    Option PostOutcome
  | true, _, _, _ => some .closed
  | false, [], _, _ => none
  | false, w :: ws, header, body =>
    if timePassed w.now deadline then some .timeout
    else
      match processEvents w.ev header body with
      | .ended h b => some (outcomeOfResponse (Response.new decode h b))
      | .cont h b => waitLoop decode deadline w.closingAfter ws h b

/-- The environment a single `Connection.post` call runs in: the request
body length, the clock at entry, the snapshots of `self.blocked` and
`self.closing` it reads (there is no suspension point between the `blocked`
check and the first loop-head check, so one `closing` value serves both),
the stream id `get_next_available_stream_id` would hand out (`none` models
`NoAvailableStreamIDError`), whether `send_headers`/`send_data` raises, and
the schedule of waiter wake-ups. -/
structure PostEnv where
  bodyLen : Nat
  now : ℚ
  blocked : Bool
  closing : Bool
  nextSid : Option Nat
  sendFails : Bool
  wakes : List Wake

/-- How a whole `Connection.post` call exits. -/
inductive PostExit where
  | assertFail
  | timeout
  | blockedExc
  | closedExc
  | sendError
  | ok (r : Response)
  | formatError
  | valueError
  | hung

/-- Lift a wait-loop outcome to a `post` exit. -/
def exitOfOutcome : PostOutcome → PostExit
  | .ok r => .ok r
  | .timeout => .timeout
  | .closed => .closedExc
  | .formatError => .formatError
  | .valueError => .valueError

/-- Models `Connection.post` (src/simple.py lines 193-237).  `channels` is
the set of stream ids present in the stream table; the call returns its
exit, the final table, and the final `closing` flag (`post` never writes
the flag, so every branch passes `env.closing` through).  In order: the
body-size `assert`; `now > deadline` raises `Timeout`; `blocked` raises
`Blocked`; a failed stream-id allocation raises `Closed`; the `assert sid
not in self.channels`; the record is inserted and headers/body are sent —
a failure there propagates with NO cleanup, because the `try`/`finally`
that deletes the record only wraps the wait loop; otherwise the wait loop
runs and the `finally` removes the record on its every exit.  `hung` marks
a run whose wake schedule ended with the loop still waiting (the `finally`
has not run yet). -/
def postRun (decode : Bytes → Option PyJson) (deadline : ETime)
    (env : PostEnv) (channels : List Nat) : PostExit × List Nat × Bool :=
  if env.bodyLen > 5120 then (.assertFail, channels, env.closing)
  else if timePassed env.now deadline then (.timeout, channels, env.closing)
  else if env.blocked then (.blockedExc, channels, env.closing)
  else
    match env.nextSid with
    | none => (.closedExc, channels, env.closing)
    | some sid =>
      if sid ∈ channels then (.assertFail, channels, env.closing)
      else
        let chans := channels ++ [sid]
        if env.sendFails then (.sendError, chans, env.closing)
        else
          match waitLoop decode deadline env.closing env.wakes none [] with
          | none => (.hung, chans, env.closing)
          | some o => (exitOfOutcome o, chans.filter (· ≠ sid), env.closing)

/-- Free connection-window space `post` requires (src/simple.py line 33). -/
def REQUIRED_FREE_SPACE : Int := 6000

/-- Largest allowed notification body (src/simple.py line 32). -/
def MAX_NOTIFICATION_PAYLOAD_SIZE : Nat := 5120

/-- The connection state the `blocked` property reads: the two lifecycle
flags, the h2 engine's outbound connection flow-control window and open
outbound stream count, and the connection's `max_concurrent_streams`. -/
structure FlowState where
  closing : Bool
  closed : Bool
  outboundWindow : Int
  openOutboundStreams : Nat
  maxConcurrentStreams : Nat

/-- Models the `Connection.blocked` property (src/simple.py lines 93-102):
closing, or closed, or the outbound connection window at or below
`REQUIRED_FREE_SPACE`, or at least `max_concurrent_streams` open outbound
streams. -/
def blocked (s : FlowState) : Bool :=
  s.closing || s.closed || decide (s.outboundWindow ≤ REQUIRED_FREE_SPACE)
    || decide (s.maxConcurrentStreams ≤ s.openOutboundStreams)

/-- The state of a stream's waiter future as the background tasks see it:
armed and pending, completed (result set, cancelled, or timed out), or
completed with the `Closed` exception. -/
inductive FutState where
  | pending
  | done
  | failedClosed
deriving DecidableEq

/-- A stream-table record (`Channel`, src/simple.py lines 36-42) as the
reader observes it: the event buffer and the waiter.  By the time the
reader can observe a record, `post` has armed the future, so the `None`
future never reaches the reader. -/
structure Chan where
  ev : List H2Event
  fut : FutState
deriving DecidableEq

/-- The connection state `background_read` touches. -/
structure ReaderState where
  closing : Bool
  closed : Bool
  maxConcurrentStreams : Nat
  channels : List (Nat × Chan)
deriving DecidableEq

/-- Fail every not-yet-completed waiter with `Closed` (the fan-out at
src/simple.py lines 142-144). -/
def failAll (chs : List (Nat × Chan)) : List (Nat × Chan) :=
  chs.map fun sc =>
    (sc.1, { sc.2 with fut := if sc.2.fut = .pending then .failedClosed else sc.2.fut })

/-- Append an event to stream `sid`'s buffer and complete its waiter if it
is still pending (src/simple.py lines 158-161). -/
def chanAppend (chs : List (Nat × Chan)) (sid : Nat) (e : H2Event) :
    List (Nat × Chan) :=
  chs.map fun sc =>
    if sc.1 = sid then
      (sc.1, { ev := sc.2.ev ++ [e],
               fut := if sc.2.fut = .pending then .done else sc.2.fut })
    else sc

/-- Process one h2 event in `background_read` (src/simple.py lines
147-179), given the stream id `getattr(event, "stream_id", 0)` routes by:
a `RemoteSettingsChanged` carrying `MAX_CONCURRENT_STREAMS` updates the
limit; an event whose stream id is in the table is appended there and the
waiter completed, otherwise it is dropped ("request fell off"); a
connection-scoped event (`sid = 0`) carrying an error code sets
`closing`. -/
def applyEvent (s : ReaderState) (se : Nat × H2Event) : ReaderState :=
  let s1 :=
    match se.2 with
    | .remoteSettingsChanged (some m) => { s with maxConcurrentStreams := m }
    | _ => s
  let s2 :=
    if (s1.channels.lookup se.1).isSome then
      { s1 with channels := chanAppend s1.channels se.1 se.2 }
    else s1
  if se.1 = 0 ∧ se.2.errorCode ≠ none then { s2 with closing := true } else s2

/-- One iteration's worth of input to the reader loop: a chunk of bytes the
codec turned into events (each tagged with its stream id), end-of-stream
(`await self.r.read(...)` returned empty), or an exception raised by the
read or by event processing. -/
inductive ReadResult where
  | chunk (events : List (Nat × H2Event))
  | eof
  | err

/-- Models `Connection.background_read` (src/simple.py lines 136-191) run
against a schedule of read results.  The loop head re-checks `self.closed`.
On end-of-stream it sets BOTH flags and fails every pending waiter with
`Closed`, then returns.  On an exception the `except Exception` handler
only logs ("background read task died") and the task ends: the flags and
the waiters are left untouched. -/
def bgRead (s : ReaderState) : List ReadResult → ReaderState
  | [] => s
  | r :: rs =>
    if s.closed then s
    else
      match r with
      | .eof => { s with closing := true, closed := true,
                         channels := failAll s.channels }
      | .err => s
      | .chunk evs => bgRead (evs.foldl applyEvent s) rs

/-- Just the two monotone lifecycle booleans. -/
structure Flags where
  closing : Bool
  closed : Bool
deriving DecidableEq

/-- Every operation of the connection, abstracted to its effect on the
lifecycle flags: `openConn` (`__aenter__`), `postOp` (`post` — reads the
flags, never writes), `readChunk` (one reader iteration over a chunk of
events; `connError` says whether a connection-scoped event carried an
error code, src/simple.py line 169), `readEof` (line 141), `readCrash`
(the reader's `except` handler — log only), `writeStep` and `writeCrash`
(the writer never touches the flags), `aexitBegin` (`self.closing = True`,
line 105) and `aexitEnd` (the `finally: self.closed = True`, line 134). -/
inductive ConnOp where
  | openConn
  | postOp
  | readChunk (connError : Bool)
  | readEof
  | readCrash
  | writeStep
  | writeCrash
  | aexitBegin
  | aexitEnd
deriving DecidableEq

/-- The effect of each operation on the lifecycle flags, read off the
source: only `readChunk` with a connection error, `readEof`, `aexitBegin`
and `aexitEnd` write them, and each write stores `True`. -/
def ConnOp.apply : ConnOp → Flags → Flags
  | .readChunk true, f => { f with closing := true }
  | .readEof, f => { f with closing := true, closed := true }
  | .aexitBegin, f => { f with closing := true }
  | .aexitEnd, f => { f with closed := true }
  | _, f => f

/-- Run a sequence of operations over the flags. -/
def runOps (f : Flags) : List ConnOp → Flags
  | [] => f
  | op :: ops => runOps (op.apply f) ops

/-- Traces the program can actually produce: `aexitEnd` is the `finally`
of `__aexit__`, so it can only run after `aexitBegin` already did
(`begun` records whether an `aexitBegin` has occurred). -/
def validFrom (begun : Bool) : List ConnOp → Prop
  | [] => True
  | op :: ops =>
    (op = .aexitEnd → begun = true) ∧
      validFrom (begun || decide (op = .aexitBegin)) ops

/-- Result of the timeout/deadline bookkeeping in `Request.new`. -/
inductive ReqNewResult where
  | valueError
  | ok (deadline : ETime)
deriving DecidableEq

/-- Models the timeout/deadline logic of `Request.new` (src/simple.py lines
305-310): both arguments raise `ValueError`; a timeout alone becomes the
absolute deadline `now + timeout`; a deadline alone is kept; neither means
`math.inf`. -/
def requestNewDeadline (now : ℚ) (timeout deadline : Option ℚ) :
    ReqNewResult :=
  match timeout, deadline with
  | some _, some _ => .valueError
  | some t, none => .ok (.fin (now + t))
  | none, some d => .ok (.fin d)
  | none, none => .ok .inf

/-- A concrete injective stand-in for `json.loads`, used to exhibit runs:
it decodes a byte string to the JSON array of its byte values, so distinct
bodies decode to distinct values. -/
def bytesAsJsonArr : Bytes → Option PyJson :=
  fun bs => some (.arr (bs.map fun n => .num (Int.ofNat n)))

/-- C1: the claim is false on the code and the round-trip law of the spec is
the intent: when the peer's `ResponseReceived` and `DataReceived` land in one
wake-up and `StreamEnded` in a later one, the wait loop re-processes the
whole buffer while keeping the accumulated body, so the same `DataReceived`
bytes are appended twice and the decoded result differs from the one-wake-up
run on the very same peer events. -/
theorem post_body_double_count :
    waitLoop bytesAsJsonArr (.fin 10) false
      [⟨1, [.responseReceived [(":status", "200")], .dataReceived [120]], false⟩,
       ⟨2, [.responseReceived [(":status", "200")], .dataReceived [120],
            .streamEnded], false⟩]
      none []
      = some (.ok ⟨200, [], some (.arr [.num 120, .num 120])⟩)
  ∧ waitLoop bytesAsJsonArr (.fin 10) false
      [⟨1, [.responseReceived [(":status", "200")], .dataReceived [120],
            .streamEnded], false⟩]
      none []
      = some (.ok ⟨200, [], some (.arr [.num 120])⟩) :=
  ⟨rfl, rfl⟩

/-- C4: the claim is false on the code and the spec is the intent: a
`StreamReset` delivered into the stream's buffer well before the deadline
matches none of the three `isinstance` branches of the wait loop, so the
loop just re-arms its waiter and the call ends in `Timeout` at the deadline
instead of failing `Closed` promptly. -/
theorem post_ignores_stream_reset :
    waitLoop (fun _ => none) (.fin 10) false
      [⟨1, [.streamReset 8], false⟩, ⟨11, [.streamReset 8], false⟩] none []
      = some .timeout :=
  rfl

/-- C5: the claim is false on the code and the spec is the intent: on
end-of-stream the reader does set both flags and fail the pending waiter,
but when the read (or event processing) raises, the `except` handler only
logs and the task dies with `closed` still false and the waiter still
pending, so the `post` caller is left to its deadline. -/
theorem read_error_vs_eof :
    bgRead ⟨false, false, 100, [(1, ⟨[], .pending⟩)]⟩ [.err]
      = ⟨false, false, 100, [(1, ⟨[], .pending⟩)]⟩
  ∧ bgRead ⟨false, false, 100, [(1, ⟨[], .pending⟩)]⟩ [.eof]
      = ⟨true, true, 100, [(1, ⟨[], .failedClosed⟩)]⟩ :=
  ⟨rfl, rfl⟩

/-- C2 (counterexample): at the boundary `deadline == now` the pre-check
`now > req.deadline` is false, so `post` does NOT fail `Timeout`: here it
goes on to consult `blocked` and raises `Blocked` instead. -/
theorem post_deadline_boundary_counterexample :
    (postRun (fun _ => none) (.fin 0) ⟨0, 0, true, false, some 1, false, []⟩ []).1
      = .blockedExc
  ∧ (postRun (fun _ => none) (.fin 0) ⟨0, 0, true, false, some 1, false, []⟩ []).1
      ≠ .timeout := by
  refine ⟨rfl, ?_⟩
  show PostExit.blockedExc ≠ PostExit.timeout
  simp

/-- C2 (amended): for every `post` call with a legal body whose deadline is
STRICTLY before the current monotonic time at entry, the call fails
`Timeout` with the stream table untouched and the lifecycle flag passed
through — for every value of `blocked` and of the next stream id, i.e.
before `blocked` is consulted and before a stream identifier is
allocated. -/
theorem post_strict_deadline_timeout (decode : Bytes → Option PyJson)
    (deadline : ETime) (env : PostEnv) (channels : List Nat)
    (hbody : env.bodyLen ≤ MAX_NOTIFICATION_PAYLOAD_SIZE)
    (hpast : timePassed env.now deadline = true) :
    postRun decode deadline env channels = (.timeout, channels, env.closing) := by
  have h1 : ¬ env.bodyLen > 5120 := by
    simp [MAX_NOTIFICATION_PAYLOAD_SIZE] at hbody
    omega
  simp [postRun, h1, hpast]

/-- Witness for `post_strict_deadline_timeout` at a concrete input. -/
theorem post_strict_deadline_timeout_witness :
    (0 : Nat) ≤ MAX_NOTIFICATION_PAYLOAD_SIZE
  ∧ timePassed 1 (.fin 0) = true
  ∧ postRun (fun _ => none) (.fin 0) ⟨0, 1, false, false, some 1, false, []⟩ []
      = (.timeout, [], false) :=
  ⟨by decide, by decide,
    post_strict_deadline_timeout (fun _ => none) (.fin 0)
      ⟨0, 1, false, false, some 1, false, []⟩ [] (by decide) (by decide)⟩

/-- C3: `blocked` is true exactly when `closing` or `closed` is set, the
outbound connection window is at or below `REQUIRED_FREE_SPACE`, or the
open outbound stream count has reached `max_concurrent_streams`; and with
the flags clear and the stream count under the limit, it is true at a
window at or below the threshold and false again at a window above it. -/
theorem blocked_characterization :
    (∀ s : FlowState,
      blocked s = true ↔
        s.closing = true ∨ s.closed = true ∨
          s.outboundWindow ≤ REQUIRED_FREE_SPACE ∨
          s.maxConcurrentStreams ≤ s.openOutboundStreams)
  ∧ (∀ (s : FlowState) (w w' : Int),
      s.closing = false → s.closed = false →
      s.openOutboundStreams < s.maxConcurrentStreams →
      w ≤ REQUIRED_FREE_SPACE → REQUIRED_FREE_SPACE < w' →
        blocked { s with outboundWindow := w } = true ∧
        blocked { s with outboundWindow := w' } = false) := by
  constructor
  · intro s
    simp [blocked]
    tauto
  · intro s w w' hc hd ho hw hw'
    constructor
    · simp [blocked]
      exact Or.inl (Or.inr hw)
    · simp [blocked, hc, hd]
      exact ⟨hw', ho⟩

/-- Witness for `blocked_characterization` at a concrete state. -/
theorem blocked_characterization_witness :
    blocked ⟨false, false, 5000, 3, 100⟩ = true
  ∧ blocked ⟨false, false, 7000, 3, 100⟩ = false :=
  blocked_characterization.2 ⟨false, false, 0, 3, 100⟩ 5000 7000 rfl rfl
    (by decide) (by decide) (by decide)

/-- C6 (counterexample): when `send_headers`/`send_data` raises, the
exception propagates before the `try`/`finally` that guards the wait loop
is entered, so the freshly inserted stream record is NOT removed: the
table that was empty at entry still holds stream 1 when `post` exits. -/
theorem post_send_failure_leaks_record :
    postRun (fun _ => none) (.fin 10) ⟨0, 0, false, false, some 1, true, []⟩ []
      = (.sendError, [1], false)
  ∧ 1 ∈ (postRun (fun _ => none) (.fin 10)
      ⟨0, 0, false, false, some 1, true, []⟩ []).2.1 :=
  ⟨rfl, by decide⟩

/-- C6 (amended): for every `post` call that passes the pre-checks, whose
sends succeed and whose wait loop completes, the stream record is removed
before the call returns — on success, `Timeout`, `Closed` and
`FormatError` alike — leaving the table exactly as it was at entry; a
failure raised while sending headers or the body, however, propagates
without the cleanup. -/
theorem post_cleanup_after_wait (decode : Bytes → Option PyJson)
    (deadline : ETime) (env : PostEnv) (channels : List Nat) (sid : Nat)
    (hbody : env.bodyLen ≤ MAX_NOTIFICATION_PAYLOAD_SIZE)
    (hpre : timePassed env.now deadline = false)
    (hb : env.blocked = false)
    (hsid : env.nextSid = some sid)
    (hfree : sid ∉ channels)
    (hsend : env.sendFails = false)
    (hdone : waitLoop decode deadline env.closing env.wakes none [] ≠ none) :
    (postRun decode deadline env channels).2.1 = channels := by
  have h1 : ¬ env.bodyLen > 5120 := by
    simp [MAX_NOTIFICATION_PAYLOAD_SIZE] at hbody
    omega
  obtain ⟨o, ho⟩ : ∃ o, waitLoop decode deadline env.closing env.wakes none []
      = some o := by
    cases hwl : waitLoop decode deadline env.closing env.wakes none [] with
    | none => exact absurd hwl hdone
    | some o => exact ⟨o, rfl⟩
  simp [postRun, h1, hpre, hb, hsid, hfree, hsend, ho, List.filter_append]
  intro a ha hc
  exact hfree (hc ▸ ha)

/-- Witness for `post_cleanup_after_wait` at a concrete input: the single
wake is past the deadline, the wait loop exits `Timeout`, and the table is
restored to `[7]`. -/
theorem post_cleanup_after_wait_witness :
    (postRun (fun _ => none) (.fin 3)
      ⟨0, 0, false, false, some 1, false, [⟨5, [], false⟩]⟩ [7]).2.1 = [7] :=
  post_cleanup_after_wait (fun _ => none) (.fin 3)
    ⟨0, 0, false, false, some 1, false, [⟨5, [], false⟩]⟩ [7] 1
    (by decide) (by decide) rfl rfl (by decide) rfl
    (fun h => Option.noConfusion h)

/-- C7 (counterexample): with the stream-id space exhausted, `post` does
raise `Closed`, but it leaves `closing` at `false` — the connection does
not move to Closing (the source even carries a FIXME asking whether it
ought to). -/
theorem exhausted_sids_leave_closing_unset :
    postRun (fun _ => none) (.fin 10) ⟨0, 0, false, false, none, false, []⟩ []
      = (.closedExc, [], false)
  ∧ ¬ (postRun (fun _ => none) (.fin 10)
      ⟨0, 0, false, false, none, false, []⟩ []).2.2 = true :=
  ⟨rfl, by decide⟩

/-- C7 (amended): when no stream identifier is available, `post` fails
`Closed` with the stream table and the `closing` flag unchanged; any
subsequent `post` on that connection (stream-id exhaustion is permanent in
h2) fails `Closed` the same way, at the allocation step rather than at the
`blocked` pre-check. -/
theorem post_exhausted_sids_closed (decode : Bytes → Option PyJson)
    (deadline : ETime) (env : PostEnv) (channels : List Nat)
    (hbody : env.bodyLen ≤ MAX_NOTIFICATION_PAYLOAD_SIZE)
    (hpre : timePassed env.now deadline = false)
    (hb : env.blocked = false)
    (hsid : env.nextSid = none) :
    postRun decode deadline env channels = (.closedExc, channels, env.closing) := by
  have h1 : ¬ env.bodyLen > 5120 := by
    simp [MAX_NOTIFICATION_PAYLOAD_SIZE] at hbody
    omega
  simp [postRun, h1, hpre, hb, hsid]

/-- Witness for `post_exhausted_sids_closed` at a concrete input. -/
theorem post_exhausted_sids_closed_witness :
    postRun (fun _ => none) (.fin 10) ⟨0, 0, false, false, none, false, []⟩ [9]
      = (.closedExc, [9], false) :=
  post_exhausted_sids_closed (fun _ => none) (.fin 10)
    ⟨0, 0, false, false, none, false, []⟩ [9] (by decide) (by decide) rfl rfl

/-- C8 (counterexample): a non-integer `:status` makes `int()` raise
`ValueError` before the body is ever looked at, so with a non-empty body
that is not valid JSON the call does NOT raise `FormatError` — refuting the
claimed "if and only if" at this input. -/
theorem response_new_nonint_status :
    Response.new (fun _ => none) (some [(":status", "abc")]) [120]
      = .error .valueError
  ∧ Response.new (fun _ => none) (some [(":status", "abc")]) [120]
      ≠ .error .formatError := by
  refine ⟨rfl, ?_⟩
  show (Except.error RespError.valueError : Except RespError Response)
      ≠ .error .formatError
  simp

/-- C8 (amended): for every header snapshot whose `:status` value (the
default string "0" when the key is absent or the header is `None`) parses
as an integer `c`, and every body: the result carries status `c`, the
remaining headers with `:status` removed, and the decoded JSON body when
non-empty (null when empty); `FormatError` is raised exactly when the body
is non-empty and not valid JSON; and `c = 0` whenever `:status` is absent.
A header whose `:status` does not parse raises `ValueError` instead. -/
theorem response_new_spec (decode : Bytes → Option PyJson)
    (header : Option (List (String × String))) (body : Bytes) (c : Int)
    (hc : pyInt (statusString header) = some c) :
    (body = [] → Response.new decode header body
        = .ok ⟨c, remainingHeaders header, none⟩)
  ∧ (∀ j, body ≠ [] → decode body = some j → Response.new decode header body
        = .ok ⟨c, remainingHeaders header, some j⟩)
  ∧ (Response.new decode header body = .error .formatError ↔
      body ≠ [] ∧ decode body = none)
  ∧ ((header.getD []).lookup ":status" = none → c = 0) := by
  refine ⟨?_, ?_, ?_, ?_⟩
  · intro hb
    simp [Response.new, hc, hb]
  · intro j hb hj
    simp [Response.new, hc, hb, hj]
  · constructor
    · intro h
      by_cases hb : body = []
      · simp [Response.new, hc, hb] at h
      · cases hj : decode body with
        | none => exact ⟨hb, rfl⟩
        | some j => simp [Response.new, hc, hb, hj] at h
    · rintro ⟨hb, hj⟩
      simp [Response.new, hc, hb, hj]
  · intro habs
    have hs : statusString header = "0" := by
      simp [statusString, habs]
    rw [hs] at hc
    have : (some 0 : Option Int) = some c := by
      rw [← hc]
      rfl
    exact (Option.some.inj this).symm

/-- Witness for `response_new_spec` at a concrete input: a 200 response
with one extra header and an empty body. -/
theorem response_new_spec_witness :
    Response.new (fun _ => none) (some [(":status", "200"), ("apns-id", "x")]) []
      = .ok ⟨200, [("apns-id", "x")], none⟩ :=
  (response_new_spec (fun _ => none)
    (some [(":status", "200"), ("apns-id", "x")]) [] 200 rfl).1 rfl

/-- Helper for the C9 invariant: along any trace the program can produce
(the `finally` that sets `closed` only runs after `closing` was set), a
state in which `closed` implies `closing`, and in which a begun `__aexit__`
implies `closing`, evolves into a state in which `closed` still implies
`closing`. -/
theorem runOps_closed_implies_closing (ops : List ConnOp) :
    ∀ (begun : Bool) (f : Flags), validFrom begun ops →
      (f.closed = true → f.closing = true) →
      (begun = true → f.closing = true) →
      (runOps f ops).closed = true → (runOps f ops).closing = true := by
  induction ops with
  | nil =>
    intro begun f _ hinv _
    exact hinv
  | cons op ops ih =>
    intro begun f hv hinv hbeg
    obtain ⟨hend, hv'⟩ := hv
    refine ih (begun || decide (op = .aexitBegin)) (op.apply f) hv' ?_ ?_
    · cases op with
      | readChunk b =>
        cases b
        · exact hinv
        · intro _
          rfl
      | readEof => intro _; rfl
      | aexitBegin => intro _; rfl
      | aexitEnd =>
        intro _
        exact hbeg (hend rfl)
      | openConn => exact hinv
      | postOp => exact hinv
      | readCrash => exact hinv
      | writeStep => exact hinv
      | writeCrash => exact hinv
    · intro hb
      cases op with
      | aexitBegin => rfl
      | readChunk b =>
        cases b
        · simp at hb
          exact hbeg hb
        · rfl
      | readEof => rfl
      | aexitEnd =>
        simp at hb
        exact hbeg hb
      | openConn => simp at hb; exact hbeg hb
      | postOp => simp at hb; exact hbeg hb
      | readCrash => simp at hb; exact hbeg hb
      | writeStep => simp at hb; exact hbeg hb
      | writeCrash => simp at hb; exact hbeg hb

/-- C9: every operation of the connection either leaves each lifecycle
flag unchanged or sets it to true (never true back to false), and along
every trace the program can produce, starting from the initial
`closing = closed = False`, whenever `closed` is set `closing` is set
too. -/
theorem flags_monotone_invariant :
    (∀ (op : ConnOp) (f : Flags),
      (f.closing = true → (op.apply f).closing = true) ∧
      (f.closed = true → (op.apply f).closed = true))
  ∧ (∀ ops : List ConnOp, validFrom false ops →
      (runOps ⟨false, false⟩ ops).closed = true →
      (runOps ⟨false, false⟩ ops).closing = true) := by
  constructor
  · intro op f
    cases op with
    | readChunk b =>
      cases b
      · exact ⟨id, id⟩
      · exact ⟨fun _ => rfl, id⟩
    | readEof => exact ⟨fun _ => rfl, fun _ => rfl⟩
    | aexitBegin => exact ⟨fun _ => rfl, id⟩
    | aexitEnd => exact ⟨id, fun _ => rfl⟩
    | openConn => exact ⟨id, id⟩
    | postOp => exact ⟨id, id⟩
    | readCrash => exact ⟨id, id⟩
    | writeStep => exact ⟨id, id⟩
    | writeCrash => exact ⟨id, id⟩
  · intro ops hv
    exact runOps_closed_implies_closing ops false ⟨false, false⟩ hv
      (fun h => by exact absurd h (by decide)) (fun h => by exact absurd h (by decide))

/-- Witness for `flags_monotone_invariant`: monotonicity applied at
`readEof` on a half-closed state, and the invariant applied to the graceful
shutdown trace `[aexitBegin, aexitEnd]`. -/
theorem flags_monotone_invariant_witness :
    (ConnOp.readEof.apply ⟨true, false⟩).closing = true
  ∧ (runOps ⟨false, false⟩ [ConnOp.aexitBegin, ConnOp.aexitEnd]).closing = true :=
  ⟨(flags_monotone_invariant.1 ConnOp.readEof ⟨true, false⟩).1 rfl,
   flags_monotone_invariant.2 [ConnOp.aexitBegin, ConnOp.aexitEnd]
     (by simp [validFrom]) (by decide)⟩

/-- C10: `Request.new` rejects supplying both a timeout and a deadline
with `ValueError` and only then; a timeout alone yields the absolute
deadline `now + timeout`; neither yields `math.inf`, and an infinite
deadline never trips the `now > deadline` test, so the request never times
out. -/
theorem request_new_deadline_spec :
    (∀ (now : ℚ) (t d : Option ℚ),
      requestNewDeadline now t d = .valueError ↔ t.isSome ∧ d.isSome)
  ∧ (∀ now t0 : ℚ, requestNewDeadline now (some t0) none = .ok (.fin (now + t0)))
  ∧ (∀ now : ℚ, requestNewDeadline now none none = .ok .inf)
  ∧ (∀ now : ℚ, timePassed now .inf = false) := by
  refine ⟨?_, fun now t0 => rfl, fun now => rfl, fun now => rfl⟩
  intro now t d
  cases t <;> cases d <;> simp [requestNewDeadline]

end Aapns
